import Mathlib

/-!
Verification of the hCaptcha remote-solver clients (Selenium and Playwright
backends) against their natural-language specification.

The development shallowly embeds the coordinate-routing input-replay engine
(`_perform_click`, `_perform_drag`, the Playwright `page.mouse` dispatch), the
drag event generators (`_drag_in_frame`, `_drag_main`, the Playwright drag
branch), the frame locator (`_get_viewport_and_crop`), the expansion waiter
(`_wait_expanded`), the token reader (`_get_token`), the steady-state loop
(`_run_loop`) and the orchestrator (`run_solve`).

Stateful, effectful code is modelled by explicit state passing: one loop
iteration consumes an environment record describing what the outside world
(remote service, DOM, network) did during that iteration, and produces the
list of observable events (network calls, pointer dispatches) the code emits.
Wall-clock time is modelled as an explicit rational number advanced by the
exact sleep constants of the source (`POLL_S = 0.12`, the 0.08 s post-action
pause, the 1.0 s error backoff, `SCREENSHOT_INTERVAL_S = 0.2`); captures and
network calls themselves are idealized as instantaneous.  Floating point
arithmetic of the interpolation formulas is idealized as exact rational
arithmetic.
-/

/-- Pixel rectangle of the widget's dominant iframe, as in `_CropRect`
(Selenium `kenzx_captcha/_solver.py` and Playwright `solver_playwright.py`). -/
structure CropRect where
  left : Int
  top : Int
  width : Int
  height : Int
deriving DecidableEq

/-- Membership test of `_inside`: half-open on the right and bottom,
`r.left <= x < r.left + r.width and r.top <= y < r.top + r.height`. -/
def inside (x y : Int) (r : CropRect) : Prop :=
  r.left ≤ x ∧ x < r.left + r.width ∧ r.top ≤ y ∧ y < r.top + r.height

instance (x y : Int) (r : CropRect) : Decidable (inside x y r) := by
  unfold inside; infer_instance

/-- An action descriptor from the remote service (`{type:"click",x,y}` or
`{type:"drag",from,to}`), all coordinates in viewport space. -/
inductive Gesture
  | click (x y : Int)
  | drag (fx fy tx ty : Int)
deriving DecidableEq

/-- Where and with which coordinates a gesture is dispatched. -/
inductive Dispatch
  | clickInFrame (x y : Int)
  | clickOnPage (x y : Int)
  | dragInFrame (fx fy tx ty : Int)
  | dragOnPage (fx fy tx ty : Int)
deriving DecidableEq

/-- Selenium `_perform_click`: route into the frame with translated
coordinates when the point is inside the crop rectangle, otherwise click the
outer page at the original coordinates. -/
def performClick (crop : Option CropRect) (vx vy : Int) : Dispatch :=
  match crop with
  | some r =>
      if inside vx vy r then .clickInFrame (vx - r.left) (vy - r.top)
      else .clickOnPage vx vy
  | none => .clickOnPage vx vy

/-- Selenium `_perform_drag`: route into the frame (translating both
endpoints) only when both endpoints are inside the crop rectangle. -/
def performDrag (crop : Option CropRect) (fx fy tx ty : Int) : Dispatch :=
  match crop with
  | some r =>
      if inside fx fy r ∧ inside tx ty r then
        .dragInFrame (fx - r.left) (fy - r.top) (tx - r.left) (ty - r.top)
      else .dragOnPage fx fy tx ty
  | none => .dragOnPage fx fy tx ty

/-- The Selenium backend's routing of one gesture (`_perform_click` /
`_perform_drag` as called from `_run_loop`). -/
def routeGesture (crop : Option CropRect) : Gesture → Dispatch
  | .click x y => performClick crop x y
  | .drag fx fy tx ty => performDrag crop fx fy tx ty

/-- The Playwright backend's dispatch of one gesture: `page.mouse.click` /
`page.mouse.move` at the raw viewport coordinates; the crop rectangle is
never consulted (`solver_playwright.py`, `_run_loop`). -/
def pwRoute (_crop : Option CropRect) : Gesture → Dispatch
  | .click x y => .clickOnPage x y
  | .drag fx fy tx ty => .dragOnPage fx fy tx ty

/-- A synthetic pointer event (mouse down / move / up) with the coordinates
it is dispatched at. -/
inductive PEv
  | down (x y : Int)
  | move (x y : Int)
  | up (x y : Int)
deriving DecidableEq

/-- JavaScript `Math.round`: round half away from negative infinity,
`Math.round(q) = floor(q + 1/2)`. -/
def jsRound (q : ℚ) : ℤ := ⌊q + 1/2⌋

/-- One interpolation step of `_drag_in_frame`'s injected script:
`Math.round(a + (b - a) * (i / 12))`, modelled in exact rational
arithmetic. -/
def jsLerp (a b : ℤ) (i : ℕ) : ℤ := jsRound ((a : ℚ) + ((b : ℚ) - (a : ℚ)) * (i : ℚ) / 12)

/-- Python `int(...)` on a real value: truncation toward zero. -/
def pyTrunc (q : ℚ) : ℤ := if 0 ≤ q then ⌊q⌋ else -⌊-q⌋

/-- One interpolation step of the Python-side drags
(`int(fx + (tx - fx) * t)` with `t = i / 12.0`), modelled in exact rational
arithmetic. -/
def pyLerp (a b : ℤ) (i : ℕ) : ℤ := pyTrunc ((a : ℚ) + ((b : ℚ) - (a : ℚ)) * (i : ℚ) / 12)

/-- Pointer events issued by Selenium `_drag_in_frame` (injected JS):
mousedown at `from`, twelve interpolated mousemoves (`i = 1..12`), mouseup at
`to`.  The script's `elementFromPoint` guard is assumed to find an element. -/
def dragInFrameEvents (fx fy tx ty : Int) : List PEv :=
  PEv.down fx fy ::
    ((List.range 12).map (fun i => PEv.move (jsLerp fx tx (i + 1)) (jsLerp fy ty (i + 1))) ++
      [PEv.up tx ty])

/-- Pointer events issued by the Playwright drag branch of `_run_loop`:
`mouse.move(from)`, `mouse.down()`, twelve interpolated `mouse.move`s
(`i in range(1, 13)`), `mouse.up()` at the position of the last move. -/
def pwDragEvents (fx fy tx ty : Int) : List PEv :=
  PEv.move fx fy :: PEv.down fx fy ::
    ((List.range 12).map (fun i => PEv.move (pyLerp fx tx (i + 1)) (pyLerp fy ty (i + 1))) ++
      [PEv.up (pyLerp fx tx 12) (pyLerp fy ty 12)])

/-- Pointer events issued by Selenium `_drag_main` (ActionChains): move to
`from` then click-and-hold, twelve interpolated moves, then a move to `to`
followed by release. -/
def dragMainEvents (fx fy tx ty : Int) : List PEv :=
  PEv.move fx fy :: PEv.down fx fy ::
    ((List.range 12).map (fun i => PEv.move (pyLerp fx tx (i + 1)) (pyLerp fy ty (i + 1))) ++
      [PEv.move tx ty, PEv.up tx ty])

/-- Recognizer for mousedown events. -/
def isDown : PEv → Bool
  | .down _ _ => true
  | _ => false

/-- Recognizer for mousemove events. -/
def isMove : PEv → Bool
  | .move _ _ => true
  | _ => false

/-- Recognizer for mouseup events. -/
def isUp : PEv → Bool
  | .up _ _ => true
  | _ => false

/-- The coordinates of the move events of a pointer sequence, in order. -/
def movePts (l : List PEv) : List (Int × Int) :=
  l.filterMap (fun e => match e with | .move x y => some (x, y) | _ => none)

/-- A raw iframe bounding rectangle as reported by
`getBoundingClientRect()`, with exact rational coordinates. -/
structure RectQ where
  left : ℚ
  top : ℚ
  width : ℚ
  height : ℚ
deriving DecidableEq

/-- One step of the best-candidate scan in `_get_viewport_and_crop`'s
injected script: skip rectangles with either dimension below 50, keep the
strictly larger area. -/
def scanStep (acc : Option RectQ × ℚ) (r : RectQ) : Option RectQ × ℚ :=
  if r.width < 50 ∨ r.height < 50 then acc
  else if acc.2 < r.width * r.height then (some r, r.width * r.height) else acc

/-- The best CAPTCHA-origin iframe rectangle, before rounding: the scan of
`_get_viewport_and_crop` over the document's iframe list. -/
def selectBest (l : List RectQ) : Option RectQ :=
  (l.foldl scanStep (none, 0)).1

/-- Rounding of the chosen rectangle to integer pixels
(`Math.round` on each field). -/
def roundRect (r : RectQ) : CropRect :=
  ⟨jsRound r.left, jsRound r.top, jsRound r.width, jsRound r.height⟩

/-- JavaScript `v || fallback` on a window dimension: 0 is falsy. -/
def effectiveDim (v fallback : Int) : Int := if v = 0 then fallback else v

/-- `_get_viewport_and_crop` (identical injected script in both backends):
the rounded largest qualifying iframe rectangle, if any, plus the outer
window's inner dimensions (with the script's `|| 1280` / `|| 720`
fallbacks). -/
def getViewportAndCrop (iframes : List RectQ) (innerW innerH : Int) :
    Option CropRect × Int × Int :=
  ((selectBest iframes).map roundRect, effectiveDim innerW 1280, effectiveDim innerH 720)

/-- One geometry probe observed by the expansion waiter: the frame locator's
rectangle (absent when no qualifying iframe exists) and viewport size. -/
structure Probe where
  rect : Option CropRect
  vw : Int
  vh : Int
deriving DecidableEq

/-- Result of the expansion wait: success, timeout, or the probe trace ended
while the loop was still polling. -/
inductive WaitResult
  | expanded (r : CropRect) (vw vh : Int)
  | timedOut
  | stillPolling
deriving DecidableEq

/-- Whether a probe's rectangle reached the minimum interactive size
(`MIN_SIZE = 260` in both dimensions). -/
def bigEnough (o : Option CropRect) : Bool :=
  match o with
  | some r => decide (260 ≤ r.width) && decide (260 ≤ r.height)
  | none => false

/-- `_wait_expanded`, driven by a trace of geometry probes.  Time is in
integer milliseconds: the probe at recursion depth `k` happens at time
`t0 + 1000 * k` (the loop sleeps `poll_interval = 1.0` seconds between
probes); `tmo` is the optional timeout budget in milliseconds, whose
deadline is `tmo` after the first probe.  Mirrors the source order: success
check first, then the deadline check, then the sleep. -/
def waitExpandedAux (tmo : Option ℤ) : ℤ → List Probe → WaitResult
  | _, [] => .stillPolling
  | t, p :: rest =>
    match p.rect with
    | some r =>
      if 260 ≤ r.width ∧ 260 ≤ r.height then .expanded r p.vw p.vh
      else
        match tmo with
        | some d => if d ≤ t then .timedOut else waitExpandedAux tmo (t + 1000) rest
        | none => waitExpandedAux tmo (t + 1000) rest
    | none =>
      match tmo with
      | some d => if d ≤ t then .timedOut else waitExpandedAux tmo (t + 1000) rest
      | none => waitExpandedAux tmo (t + 1000) rest

/-- `_wait_expanded` from the start of the wait (first probe at time 0). -/
def waitExpanded (tmo : Option ℤ) (probes : List Probe) : WaitResult :=
  waitExpandedAux tmo 0 probes

/-- Python `str.strip()` modelled on the character list: drop surrounding
whitespace. -/
def pyStrip (s : String) : String :=
  String.mk (((s.data.dropWhile Char.isWhitespace).reverse.dropWhile Char.isWhitespace).reverse)

/-- `_get_token`: read the hidden response field, strip it, and report an
empty result as no token (`return v or None`).  `field` is the raw value of
the response element, absent when the element does not exist. -/
def getToken (field : Option String) : Option String :=
  match field with
  | none => none
  | some s => if pyStrip s = "" then none else some (pyStrip s)

/-- Outcome of one `get_next_action` call: a transport error
(non-interrupt exception), a KeyboardInterrupt, or a parsed response with
session status and optional pending action. -/
inductive PollOutcome
  | raised
  | interrupt
  | ok (status : String) (action : Option Gesture)
deriving DecidableEq

/-- What happened in the screenshot branch when it fired: the geometry probe
raised, the screenshot upload raised, or the upload succeeded. -/
inductive ShotOutcome
  | probeRaised
  | pushRaised
  | pushed
deriving DecidableEq

/-- Environment of one `_run_loop` iteration: everything the outside world
(remote service, DOM, network) decides during that iteration. -/
structure IterEnv where
  poll : PollOutcome
  actRaised : Bool
  tokenField : Option String
  notifyRaised : Bool
  geom : Option CropRect
  shot : ShotOutcome
deriving DecidableEq

/-- Observable event emitted by the loop, with the time it happens at
(integer milliseconds):
a `next-action` poll, a pointer dispatch (with the gesture and the chosen
routing), a `notify_solved` call, or a screenshot push (`ok = false` when
the upload raised). -/
inductive Ev
  | pollCall (t : ℤ)
  | dispatchEv (t : ℤ) (g : Gesture) (d : Dispatch)
  | notifyCall (t : ℤ) (token : String)
  | pushCall (t : ℤ) (rect : Option CropRect) (ok : Bool)
deriving DecidableEq

/-- How the steady-state loop ended; `stillLooping` means the environment
trace was exhausted with the loop still running. -/
inductive LoopExit
  | interrupted
  | sessionEnded (status : String)
  | tokenSubmitted (token : String)
  | stillLooping
deriving DecidableEq

/-- Result of one loop iteration: stop with an exit, or continue with the
new current time and last-screenshot time. -/
inductive StepRes
  | stop (ex : LoopExit)
  | next (t ls : ℤ)
deriving DecidableEq

/-- The dispatch step of one iteration: a pending action produces exactly
one pointer dispatch, routed by the backend's routing function. -/
def actionEvs (route : Option CropRect → Gesture → Dispatch) (crop : Option CropRect)
    (t : ℤ) : Option Gesture → List Ev
  | some g => [.dispatchEv t g (route crop g)]
  | none => []

/-- Time after the replay pause: `time.sleep(0.08)` (80 ms) runs only when
an action was replayed. -/
def afterAction (t : ℤ) : Option Gesture → ℤ
  | some _ => t + 80
  | none => t

/-- The token check and screenshot branch of one `_run_loop` iteration, at
time `t1` with last screenshot at `ls`, continuing the event list `pre`.
A non-empty token triggers `notify_solved` (a raising call is caught by the
outer handler, which backs off 1 s = 1000 ms); otherwise, if at least
`SCREENSHOT_INTERVAL_S = 0.2` (200 ms) elapsed since `ls`, the screenshot
branch probes geometry and pushes (its own failures only skip the
`last_shot` update); then the loop sleeps `POLL_S = 0.12` (120 ms). -/
def tokenAndShot (t1 ls : ℤ) (e : IterEnv) (pre : List Ev) : List Ev × StepRes :=
  match getToken e.tokenField with
  | some tok =>
    if e.notifyRaised then (pre ++ [.notifyCall t1 tok], .next (t1 + 1000) ls)
    else (pre ++ [.notifyCall t1 tok], .stop (.tokenSubmitted tok))
  | none =>
    if 200 ≤ t1 - ls then
      match e.shot with
      | .probeRaised => (pre, .next (t1 + 120) ls)
      | .pushRaised => (pre ++ [.pushCall t1 e.geom false], .next (t1 + 120) ls)
      | .pushed => (pre ++ [.pushCall t1 e.geom true], .next (t1 + 120) t1)
    else (pre, .next (t1 + 120) ls)

/-- One iteration of `_run_loop` at time `t` with last screenshot at `ls`:
poll (a KeyboardInterrupt returns; any other exception backs off 1000 ms),
stop on a terminal status, replay the pending action with the loop's crop
rectangle (a replay exception backs off 1000 ms), then the token check and
screenshot branch. -/
def stepPoll (route : Option CropRect → Gesture → Dispatch) (crop : Option CropRect)
    (t ls : ℤ) (e : IterEnv) : PollOutcome → List Ev × StepRes
  | .interrupt => ([.pollCall t], .stop .interrupted)
  | .raised => ([.pollCall t], .next (t + 1000) ls)
  | .ok status act =>
    if status = "expired" ∨ status = "solved" then
      ([.pollCall t], .stop (.sessionEnded status))
    else if e.actRaised && act.isSome then
      (.pollCall t :: actionEvs route crop t act, .next (t + 1000) ls)
    else
      tokenAndShot (afterAction t act) ls e (.pollCall t :: actionEvs route crop t act)

/-- One iteration of `_run_loop`, dispatching on the poll outcome of its
environment. -/
def stepIter (route : Option CropRect → Gesture → Dispatch) (crop : Option CropRect)
    (t ls : ℤ) (e : IterEnv) : List Ev × StepRes :=
  stepPoll route crop t ls e e.poll

/-- `_run_loop` driven by a trace of per-iteration environments.  The crop
rectangle used for routing is the `crop` argument the loop was entered with;
it is fixed for the whole run, exactly as in the source. -/
def runLoopAux (route : Option CropRect → Gesture → Dispatch) (crop : Option CropRect) :
    ℤ → ℤ → List IterEnv → List Ev × LoopExit
  | _, _, [] => ([], .stillLooping)
  | t, ls, e :: rest =>
    match (stepIter route crop t ls e).2 with
    | .stop ex => ((stepIter route crop t ls e).1, ex)
    | .next t2 ls2 =>
      ((stepIter route crop t ls e).1 ++ (runLoopAux route crop t2 ls2 rest).1,
       (runLoopAux route crop t2 ls2 rest).2)

/-- `_run_loop` from its entry at time `t0` (`last_shot` is initialized to
the entry time). -/
def runLoop (route : Option CropRect → Gesture → Dispatch) (crop : Option CropRect)
    (t0 : ℤ) (envs : List IterEnv) : List Ev × LoopExit :=
  runLoopAux route crop t0 t0 envs

/-- Number of `notify_solved` calls in an event trace. -/
def countNotify (evs : List Ev) : ℕ :=
  evs.countP (fun e => match e with | .notifyCall _ _ => true | _ => false)

/-- Times of all screenshot push attempts (network calls), in order. -/
def pushTimes (evs : List Ev) : List ℤ :=
  evs.filterMap (fun e => match e with | .pushCall t _ _ => some t | _ => none)

/-- Times of the successful screenshot pushes, in order. -/
def successPushTimes (evs : List Ev) : List ℤ :=
  evs.filterMap (fun e => match e with | .pushCall t _ true => some t | _ => none)

/-- The pointer dispatches of a trace: each replayed gesture with the
routing decision made for it. -/
def dispatches (evs : List Ev) : List (Gesture × Dispatch) :=
  evs.filterMap (fun e => match e with | .dispatchEv _ g d => some (g, d) | _ => none)

/-- The `createTask` response body: `errorId` (absent key modelled as
`none`) and optional `taskId` (the empty string is a falsy task id). -/
structure CreateResp where
  errorId : Option Int
  taskId : Option String
deriving DecidableEq

/-- Python truthiness of the `taskId` field: present and non-empty. -/
def taskIdPresent : Option String → Bool
  | none => false
  | some s => !(s == "")

/-- Environment of one `run_solve` attempt from the `createTask` call on
(the checkbox/expansion waits precede it and are modelled separately):
the `createTask` outcome (`none` = the call raised), whether
`start_remote_session` (or the first screenshot capture) raised, and the
loop iteration environments. -/
structure SolveEnv where
  createResult : Option CreateResp
  startRaised : Bool
  loopEnvs : List IterEnv

/-- A network call made by `run_solve`, in order. -/
inductive NetCall
  | createTask
  | startSession (crop : Option CropRect)
  | loopEv (e : Ev)
deriving DecidableEq

/-- How `run_solve` finished: an exception propagated to the caller, or a
normal return value. -/
inductive SolveResult
  | raised
  | returned (taskId : Option String)
deriving DecidableEq

/-- `run_solve` from the `createTask` call on: abort with `None` when the
response has a non-zero (or missing) `errorId` or a falsy `taskId`; then
`start_remote_session` with the crop rectangle obtained from the expansion
wait; then the steady-state loop; finally return the task id whatever the
loop's exit was. -/
def runSolveWith (route : Option CropRect → Gesture → Dispatch) (crop : Option CropRect)
    (env : SolveEnv) : Option CreateResp → List NetCall × SolveResult
  | none => ([.createTask], .raised)
  | some res =>
    if res.errorId ≠ some 0 ∨ taskIdPresent res.taskId = false then
      ([.createTask], .returned none)
    else if env.startRaised then
      ([.createTask, .startSession crop], .raised)
    else
      ([.createTask, .startSession crop] ++
        (runLoop route crop 0 env.loopEnvs).1.map .loopEv,
       .returned res.taskId)

/-- `run_solve` dispatching on its `createTask` outcome. -/
def runSolve (route : Option CropRect → Gesture → Dispatch) (crop : Option CropRect)
    (env : SolveEnv) : List NetCall × SolveResult :=
  runSolveWith route crop env env.createResult

/-- C1, counterexample.  In the Playwright backend the click point
`(100, 50)` lies inside the crop rectangle
`{left 20, top 10, width 500, height 500}`, yet the gesture is dispatched
against the outer page at the original viewport coordinates rather than
inside the nested frame at `(80, 40)` — the Playwright `_run_loop` never
consults the crop rectangle, so the claimed routing rule does not hold for
both backend implementations. -/
theorem c1_playwright_routing_cex :
    inside 100 50 ⟨20, 10, 500, 500⟩ ∧
    pwRoute (some ⟨20, 10, 500, 500⟩) (.click 100 50) = .clickOnPage 100 50 ∧
    Dispatch.clickOnPage 100 50 ≠ .clickInFrame 80 40 :=
  ⟨by decide, rfl, by decide⟩

/-- C1, amended.  The Selenium backend's replay engine routes a click into
the nested frame, translated by exactly `(left, top)`, if and only if the
point lies in the half-open rectangle
`[left, left+width) × [top, top+height)`; otherwise (and when no crop
rectangle exists) it dispatches on the outer page at the original viewport
coordinates; a drag is routed into the frame iff both endpoints lie inside,
again translated by `(left, top)`.  The Playwright backend performs no
routing at all: every gesture is dispatched exactly as with an absent crop
rectangle, i.e. on the outer page at the original viewport coordinates. -/
theorem c1_routing_amended (r : CropRect) (x y fx fy tx ty : Int)
    (crop : Option CropRect) (g : Gesture) :
    (routeGesture (some r) (.click x y) = .clickInFrame (x - r.left) (y - r.top) ↔
      (r.left ≤ x ∧ x < r.left + r.width ∧ r.top ≤ y ∧ y < r.top + r.height)) ∧
    (¬ inside x y r → routeGesture (some r) (.click x y) = .clickOnPage x y) ∧
    (routeGesture none (.click x y) = .clickOnPage x y) ∧
    (routeGesture (some r) (.drag fx fy tx ty) =
        .dragInFrame (fx - r.left) (fy - r.top) (tx - r.left) (ty - r.top) ↔
      (inside fx fy r ∧ inside tx ty r)) ∧
    (¬ (inside fx fy r ∧ inside tx ty r) →
      routeGesture (some r) (.drag fx fy tx ty) = .dragOnPage fx fy tx ty) ∧
    (routeGesture none (.drag fx fy tx ty) = .dragOnPage fx fy tx ty) ∧
    pwRoute crop g = routeGesture none g := by
  refine ⟨?_, ?_, rfl, ?_, ?_, rfl, ?_⟩
  · show _ ↔ inside x y r
    by_cases h : inside x y r <;>
      simp [routeGesture, performClick, h]
  · intro h
    simp [routeGesture, performClick, h]
  · by_cases h : inside fx fy r ∧ inside tx ty r <;>
      simp [routeGesture, performDrag, h]
  · intro h
    simp [routeGesture, performDrag, h]
  · cases g <;> rfl

/-- C1 witness: the amended theorem applied at concrete inputs, discharging
the outside-the-rectangle hypotheses. -/
theorem c1_routing_amended_w :
    routeGesture (some ⟨20, 10, 500, 500⟩) (.click 5 5) = .clickOnPage 5 5 ∧
    routeGesture (some ⟨20, 10, 500, 500⟩) (.drag 5 5 600 600) = .dragOnPage 5 5 600 600 :=
  ⟨(c1_routing_amended ⟨20, 10, 500, 500⟩ 5 5 5 5 600 600 none (.click 0 0)).2.1 (by decide),
   (c1_routing_amended ⟨20, 10, 500, 500⟩ 5 5 5 5 600 600 none
      (.click 0 0)).2.2.2.2.1 (by decide)⟩

/-- At interpolation parameter `t = 12/12 = 1` the JavaScript formula lands
exactly on the target coordinate. -/
lemma jsLerp_twelve (a b : ℤ) : jsLerp a b 12 = b := by
  unfold jsLerp jsRound
  have h : (a : ℚ) + ((b : ℚ) - (a : ℚ)) * ((12 : ℕ) : ℚ) / 12 = (b : ℚ) := by
    push_cast; ring
  rw [h, Int.floor_int_add]
  norm_num

/-- At interpolation parameter `t = 12/12 = 1` the Python formula lands
exactly on the target coordinate. -/
lemma pyLerp_twelve (a b : ℤ) : pyLerp a b 12 = b := by
  unfold pyLerp pyTrunc
  have h : (a : ℚ) + ((b : ℚ) - (a : ℚ)) * ((12 : ℕ) : ℚ) / 12 = (b : ℚ) := by
    push_cast; ring
  rw [h]
  split
  · exact Int.floor_intCast b
  · rw [← Int.cast_neg, Int.floor_intCast]; ring

/-- C5, counterexample.  The Playwright drag branch issues a positioning
`mouse.move` to the start point before the pointer-down, so the drag
consists of 13 move events (and its first pointer event is a move, not the
down): the claimed "exactly 12 moves and no other pointer events" count is
violated.  Shown at the concrete drag from `(0,0)` to `(12,0)`. -/
theorem c5_extra_move_cex :
    (pwDragEvents 0 0 12 0).countP isMove = 13 ∧ (13 : ℕ) ≠ 12 ∧
    (pwDragEvents 0 0 12 0).head? = some (.move 0 0) :=
  ⟨by decide, by decide, by decide⟩

/-- C5, amended.  Every backend's drag issues exactly one pointer-down at
`from`, twelve interpolated moves at parameters `t = i/12` for `i = 1..12`
with the twelfth landing exactly on `to`, and exactly one pointer-up at
`to`.  Only the Selenium in-frame path matches the claimed
1 down + 12 moves + 1 up sequence exactly; the Playwright path first issues
one extra positioning move to `from` (13 moves in total, the first pointer
event being that move), and the Selenium outer-page path issues both the
positioning move to `from` and one extra move to `to` before the release
(14 moves in total). -/
theorem c5_drag_events_amended (fx fy tx ty : Int) :
    ((dragInFrameEvents fx fy tx ty).countP isDown = 1 ∧
     (dragInFrameEvents fx fy tx ty).countP isMove = 12 ∧
     (dragInFrameEvents fx fy tx ty).countP isUp = 1 ∧
     (dragInFrameEvents fx fy tx ty).head? = some (.down fx fy) ∧
     (dragInFrameEvents fx fy tx ty).getLast? = some (.up tx ty) ∧
     movePts (dragInFrameEvents fx fy tx ty) =
       (List.range 12).map (fun i => (jsLerp fx tx (i + 1), jsLerp fy ty (i + 1))) ∧
     jsLerp fx tx 12 = tx ∧ jsLerp fy ty 12 = ty) ∧
    ((pwDragEvents fx fy tx ty).countP isDown = 1 ∧
     (pwDragEvents fx fy tx ty).countP isMove = 13 ∧
     (pwDragEvents fx fy tx ty).countP isUp = 1 ∧
     (pwDragEvents fx fy tx ty).head? = some (.move fx fy) ∧
     (pwDragEvents fx fy tx ty).getLast? = some (.up tx ty) ∧
     movePts (pwDragEvents fx fy tx ty) =
       (fx, fy) :: (List.range 12).map (fun i => (pyLerp fx tx (i + 1), pyLerp fy ty (i + 1))) ∧
     pyLerp fx tx 12 = tx ∧ pyLerp fy ty 12 = ty) ∧
    ((dragMainEvents fx fy tx ty).countP isDown = 1 ∧
     (dragMainEvents fx fy tx ty).countP isMove = 14 ∧
     (dragMainEvents fx fy tx ty).countP isUp = 1 ∧
     (dragMainEvents fx fy tx ty).head? = some (.move fx fy) ∧
     (dragMainEvents fx fy tx ty).getLast? = some (.up tx ty)) := by
  have hr : List.range 12 = [0,1,2,3,4,5,6,7,8,9,10,11] := rfl
  have hifr : (dragInFrameEvents fx fy tx ty).getLast? = some (.up tx ty) := by
    have h2 : dragInFrameEvents fx fy tx ty =
        (PEv.down fx fy ::
          (List.range 12).map (fun i => PEv.move (jsLerp fx tx (i + 1)) (jsLerp fy ty (i + 1)))) ++
          [PEv.up tx ty] := by simp [dragInFrameEvents]
    rw [h2, List.getLast?_append_cons]
    rfl
  have hpw : (pwDragEvents fx fy tx ty).getLast? = some (.up tx ty) := by
    have h2 : pwDragEvents fx fy tx ty =
        (PEv.move fx fy :: PEv.down fx fy ::
          (List.range 12).map (fun i => PEv.move (pyLerp fx tx (i + 1)) (pyLerp fy ty (i + 1)))) ++
          [PEv.up (pyLerp fx tx 12) (pyLerp fy ty 12)] := by simp [pwDragEvents]
    rw [h2, List.getLast?_append_cons, pyLerp_twelve, pyLerp_twelve]
    rfl
  have hmain : (dragMainEvents fx fy tx ty).getLast? = some (.up tx ty) := by
    have h2 : dragMainEvents fx fy tx ty =
        (PEv.move fx fy :: PEv.down fx fy ::
          (List.range 12).map (fun i => PEv.move (pyLerp fx tx (i + 1)) (pyLerp fy ty (i + 1)))) ++
          PEv.move tx ty :: [PEv.up tx ty] := by simp [dragMainEvents]
    rw [h2, List.getLast?_append_cons]
    rfl
  refine ⟨⟨?_, ?_, ?_, ?_, hifr, ?_, jsLerp_twelve fx tx, jsLerp_twelve fy ty⟩,
          ⟨?_, ?_, ?_, ?_, hpw, ?_, pyLerp_twelve fx tx, pyLerp_twelve fy ty⟩,
          ?_, ?_, ?_, ?_, hmain⟩ <;>
    simp [dragInFrameEvents, pwDragEvents, dragMainEvents, hr, isDown, isMove, isUp,
      movePts, List.countP_cons, List.countP_append]

/-- A successful expansion wait only ever returns a rectangle with both
dimensions at least 260. -/
lemma waitAux_expanded_big (tmo : Option ℤ) :
    ∀ (probes : List Probe) (t : ℤ) (r : CropRect) (vw vh : Int),
      waitExpandedAux tmo t probes = .expanded r vw vh →
      260 ≤ r.width ∧ 260 ≤ r.height := by
  intro probes
  induction probes with
  | nil => intro t r vw vh h; simp [waitExpandedAux] at h
  | cons p rest ih =>
    obtain ⟨pr, pvw, pvh⟩ := p
    intro t r vw vh h
    rcases tmo with _ | d <;> rcases pr with _ | r' <;>
      simp only [waitExpandedAux] at h
    · exact ih _ _ _ _ h
    · by_cases hbig : 260 ≤ r'.width ∧ 260 ≤ r'.height
      · rw [if_pos hbig] at h
        obtain ⟨h1, h2, h3⟩ := WaitResult.expanded.inj h
        subst h1; exact hbig
      · rw [if_neg hbig] at h
        exact ih _ _ _ _ h
    · by_cases hdt : d ≤ t
      · rw [if_pos hdt] at h
        exact WaitResult.noConfusion h
      · rw [if_neg hdt] at h
        exact ih _ _ _ _ h
    · by_cases hbig : 260 ≤ r'.width ∧ 260 ≤ r'.height
      · rw [if_pos hbig] at h
        obtain ⟨h1, h2, h3⟩ := WaitResult.expanded.inj h
        subst h1; exact hbig
      · rw [if_neg hbig] at h
        by_cases hdt : d ≤ t
        · rw [if_pos hdt] at h
          exact WaitResult.noConfusion h
        · rw [if_neg hdt] at h
          exact ih _ _ _ _ h

/-- With no timeout configured the wait never reports a timeout. -/
lemma waitAux_none_ne_timedOut :
    ∀ (probes : List Probe) (t : ℤ), waitExpandedAux none t probes ≠ .timedOut := by
  intro probes
  induction probes with
  | nil => intro t h; simp [waitExpandedAux] at h
  | cons p rest ih =>
    obtain ⟨pr, pvw, pvh⟩ := p
    intro t h
    rcases pr with _ | r' <;> simp only [waitExpandedAux] at h
    · exact ih _ h
    · by_cases hbig : 260 ≤ r'.width ∧ 260 ≤ r'.height
      · rw [if_pos hbig] at h
        exact WaitResult.noConfusion h
      · rw [if_neg hbig] at h
        exact ih _ h

/-- With no timeout configured and no probe ever reaching the threshold,
the wait is still polling after any number of probes. -/
lemma waitAux_none_stillPolling :
    ∀ (probes : List Probe) (t : ℤ), (∀ p ∈ probes, bigEnough p.rect = false) →
      waitExpandedAux none t probes = .stillPolling := by
  intro probes
  induction probes with
  | nil => intro t _; rfl
  | cons p rest ih =>
    obtain ⟨pr, pvw, pvh⟩ := p
    intro t hall
    have hp := hall _ (List.mem_cons_self _ rest)
    have hrest := fun q hq => hall q (List.mem_cons_of_mem _ hq)
    rcases pr with _ | r'
    · simp only [waitExpandedAux]
      exact ih _ hrest
    · simp only [bigEnough] at hp
      have hbig : ¬ (260 ≤ r'.width ∧ 260 ≤ r'.height) := by
        intro hc
        simp [hc.1, hc.2] at hp
      simp only [waitExpandedAux, if_neg hbig]
      exact ih _ hrest

/-- With a timeout configured, all probes below the threshold, and the
deadline inside the probe trace, the wait raises the timeout error. -/
lemma waitAux_timeout (d : ℤ) :
    ∀ (probes : List Probe) (t : ℤ), (∀ p ∈ probes, bigEnough p.rect = false) →
      probes ≠ [] → d ≤ t + 1000 * (probes.length - 1) →
      waitExpandedAux (some d) t probes = .timedOut := by
  intro probes
  induction probes with
  | nil => intro t _ hne _; exact absurd rfl hne
  | cons p rest ih =>
    obtain ⟨pr, pvw, pvh⟩ := p
    intro t hall _ hd
    have hp := hall _ (List.mem_cons_self _ rest)
    have hrestall := fun q hq => hall q (List.mem_cons_of_mem _ hq)
    simp only [List.length_cons] at hd
    push_cast at hd
    by_cases hdt : d ≤ t
    · rcases pr with _ | r'
      · simp only [waitExpandedAux, if_pos hdt]
      · simp only [bigEnough] at hp
        have hbig : ¬ (260 ≤ r'.width ∧ 260 ≤ r'.height) := by
          intro hc; simp [hc.1, hc.2] at hp
        simp only [waitExpandedAux, if_neg hbig, if_pos hdt]
    · have hrest : rest ≠ [] := by
        intro hnil
        subst hnil
        simp at hd
        omega
      have hlen : (1 : ℤ) ≤ rest.length := by
        rcases rest with _ | ⟨q, qs⟩
        · exact absurd rfl hrest
        · simp
      have hd2 : d ≤ (t + 1000) + 1000 * ((rest.length : ℤ) - 1) := by linarith
      rcases pr with _ | r'
      · simp only [waitExpandedAux, if_neg hdt]
        exact ih _ hrestall hrest hd2
      · simp only [bigEnough] at hp
        have hbig : ¬ (260 ≤ r'.width ∧ 260 ≤ r'.height) := by
          intro hc; simp [hc.1, hc.2] at hp
        simp only [waitExpandedAux, if_neg hbig, if_neg hdt]
        exact ih _ hrestall hrest hd2

/-- C6.  The Expansion Waiter returns a rectangle only when both dimensions
are at least 260 px, no matter how many probes pass at smaller sizes; with
no timeout configured it never raises a timeout and keeps polling
indefinitely while the widget stays small; with a timeout configured whose
deadline falls before expansion it raises the timeout error; and probes
happen at the fixed 1-second (1000 ms) cadence: a failed probe at time `t`
is followed by the rest of the wait starting at exactly `t + 1000`. -/
theorem c6_expansion_waiter (tmo : Option ℤ) (d t : ℤ) (probes rest : List Probe)
    (p : Probe) (r : CropRect) (vw vh : Int) :
    (waitExpanded tmo probes = .expanded r vw vh → 260 ≤ r.width ∧ 260 ≤ r.height) ∧
    (waitExpanded none probes ≠ .timedOut) ∧
    ((∀ q ∈ probes, bigEnough q.rect = false) → waitExpanded none probes = .stillPolling) ∧
    ((∀ q ∈ probes, bigEnough q.rect = false) → probes ≠ [] →
      d ≤ 1000 * (probes.length - 1) → waitExpanded (some d) probes = .timedOut) ∧
    (bigEnough p.rect = false →
      waitExpandedAux none t (p :: rest) = waitExpandedAux none (t + 1000) rest) ∧
    (bigEnough p.rect = false → ¬ d ≤ t →
      waitExpandedAux (some d) t (p :: rest) = waitExpandedAux (some d) (t + 1000) rest) := by
  refine ⟨waitAux_expanded_big tmo probes 0 r vw vh,
          waitAux_none_ne_timedOut probes 0,
          waitAux_none_stillPolling probes 0,
          fun hall hne hd => waitAux_timeout d probes 0 hall hne (by simpa using hd),
          ?_, ?_⟩
  · intro hp
    obtain ⟨pr, pvw, pvh⟩ := p
    rcases pr with _ | r'
    · simp only [waitExpandedAux]
    · simp only [bigEnough] at hp
      have hbig : ¬ (260 ≤ r'.width ∧ 260 ≤ r'.height) := by
        intro hc; simp [hc.1, hc.2] at hp
      simp only [waitExpandedAux, if_neg hbig]
  · intro hp hdt
    obtain ⟨pr, pvw, pvh⟩ := p
    rcases pr with _ | r'
    · simp only [waitExpandedAux, if_neg hdt]
    · simp only [bigEnough] at hp
      have hbig : ¬ (260 ≤ r'.width ∧ 260 ≤ r'.height) := by
        intro hc; simp [hc.1, hc.2] at hp
      simp only [waitExpandedAux, if_neg hbig, if_neg hdt]

/-- C6 witness: the waiter theorem applied at concrete probe traces — a
successful expansion at 300 by 300, indefinite polling on an
under-threshold trace without a timeout, a timeout on the same trace with a
1000 ms budget, and the 1000 ms cadence step. -/
theorem c6_expansion_waiter_w :
    (260 ≤ (⟨0, 0, 300, 300⟩ : CropRect).width ∧
      260 ≤ (⟨0, 0, 300, 300⟩ : CropRect).height) ∧
    waitExpanded none [⟨some ⟨0, 0, 100, 100⟩, 800, 600⟩] = .stillPolling ∧
    waitExpanded (some 1000) [⟨some ⟨0, 0, 100, 100⟩, 800, 600⟩, ⟨none, 800, 600⟩] = .timedOut ∧
    waitExpandedAux none 0 [⟨none, 800, 600⟩] = waitExpandedAux none 1000 [] :=
  ⟨(c6_expansion_waiter none 0 0 [⟨some ⟨0, 0, 300, 300⟩, 800, 600⟩] [] ⟨none, 800, 600⟩
      ⟨0, 0, 300, 300⟩ 800 600).1 (by decide),
   (c6_expansion_waiter none 0 0 [⟨some ⟨0, 0, 100, 100⟩, 800, 600⟩] [] ⟨none, 800, 600⟩
      ⟨0, 0, 300, 300⟩ 800 600).2.2.1 (by decide),
   (c6_expansion_waiter none 1000 0 [⟨some ⟨0, 0, 100, 100⟩, 800, 600⟩, ⟨none, 800, 600⟩] []
      ⟨none, 800, 600⟩ ⟨0, 0, 300, 300⟩ 800 600).2.2.2.1 (by decide) (by decide) (by decide),
   (c6_expansion_waiter none 0 0 [] [] ⟨none, 800, 600⟩
      ⟨0, 0, 300, 300⟩ 800 600).2.2.2.2.1 (by decide)⟩

/-- Invariant of the best-candidate fold: the accumulator's area field
mirrors its rectangle, any final best rectangle qualifies, comes from the
accumulator or the list, and its area dominates every qualifying list
entry. -/
lemma scan_foldl_spec :
    ∀ (l : List RectQ) (acc : Option RectQ × ℚ),
      (acc.1 = none → acc.2 = 0) →
      (∀ b, acc.1 = some b → (50 ≤ b.width ∧ 50 ≤ b.height) ∧ acc.2 = b.width * b.height) →
      ((l.foldl scanStep acc).1 = none → (l.foldl scanStep acc).2 = 0) ∧
      (∀ b, (l.foldl scanStep acc).1 = some b →
        ((50 ≤ b.width ∧ 50 ≤ b.height) ∧ (l.foldl scanStep acc).2 = b.width * b.height ∧
          (acc.1 = some b ∨ b ∈ l))) ∧
      (∀ f ∈ l, 50 ≤ f.width → 50 ≤ f.height →
        f.width * f.height ≤ (l.foldl scanStep acc).2) ∧
      acc.2 ≤ (l.foldl scanStep acc).2 := by
  intro l
  induction l with
  | nil =>
    intro acc h1 h2
    refine ⟨h1, fun b hb => ⟨(h2 b hb).1, (h2 b hb).2, Or.inl hb⟩, ?_, le_refl _⟩
    intro f hf
    simp at hf
  | cons r l ih =>
    intro acc h1 h2
    have hfold : (r :: l).foldl scanStep acc = l.foldl scanStep (scanStep acc r) := rfl
    by_cases hsmall : r.width < 50 ∨ r.height < 50
    · have hstep : scanStep acc r = acc := by simp [scanStep, hsmall]
      rw [hfold, hstep]
      obtain ⟨c1, c2, c3, c4⟩ := ih acc h1 h2
      refine ⟨c1, ?_, ?_, c4⟩
      · intro b hb
        obtain ⟨q, ha, horig⟩ := c2 b hb
        exact ⟨q, ha, horig.imp id (List.mem_cons_of_mem r)⟩
      · intro f hf hw hh
        rcases List.mem_cons.mp hf with hfr | hfl
        · subst hfr
          rcases hsmall with h | h <;> linarith
        · exact c3 f hfl hw hh
    · push_neg at hsmall
      by_cases htake : acc.2 < r.width * r.height
      · have hstep : scanStep acc r = (some r, r.width * r.height) := by
          simp [scanStep, htake]
          intro h
          rcases h with h | h <;> linarith [hsmall.1, hsmall.2]
        rw [hfold, hstep]
        have h1' : (some r, r.width * r.height).1 = none → (some r, r.width * r.height).2 = 0 := by
          intro h; simp at h
        have h2' : ∀ b, (some r, r.width * r.height).1 = some b →
            (50 ≤ b.width ∧ 50 ≤ b.height) ∧
              (some r, r.width * r.height).2 = b.width * b.height := by
          intro b hb
          simp at hb
          subst hb
          exact ⟨⟨hsmall.1, hsmall.2⟩, rfl⟩
        obtain ⟨c1, c2, c3, c4⟩ := ih _ h1' h2'
        refine ⟨c1, ?_, ?_, ?_⟩
        · intro b hb
          obtain ⟨q, ha, horig⟩ := c2 b hb
          refine ⟨q, ha, ?_⟩
          rcases horig with h | h
          · simp at h
            subst h
            exact Or.inr (List.mem_cons_self r l)
          · exact Or.inr (List.mem_cons_of_mem r h)
        · intro f hf hw hh
          rcases List.mem_cons.mp hf with hfr | hfl
          · subst hfr
            simpa using c4
          · exact c3 f hfl hw hh
        · calc acc.2 ≤ r.width * r.height := le_of_lt htake
            _ ≤ _ := by simpa using c4
      · have hstep : scanStep acc r = acc := by
          simp only [scanStep]
          rw [if_neg, if_neg htake]
          intro h
          rcases h with h | h <;> linarith [hsmall.1, hsmall.2]
        rw [hfold, hstep]
        obtain ⟨c1, c2, c3, c4⟩ := ih acc h1 h2
        refine ⟨c1, ?_, ?_, c4⟩
        · intro b hb
          obtain ⟨q, ha, horig⟩ := c2 b hb
          exact ⟨q, ha, horig.imp id (List.mem_cons_of_mem r)⟩
        · intro f hf hw hh
          rcases List.mem_cons.mp hf with hfr | hfl
          · subst hfr
            push_neg at htake
            linarith
          · exact c3 f hfl hw hh

/-- When every rectangle in the list is under the 50 px filter the scan
leaves the accumulator unchanged. -/
lemma scan_all_small :
    ∀ (l : List RectQ) (acc : Option RectQ × ℚ),
      (∀ f ∈ l, f.width < 50 ∨ f.height < 50) → l.foldl scanStep acc = acc := by
  intro l
  induction l with
  | nil => intro acc _; rfl
  | cons r l ih =>
    intro acc hall
    have hr := hall r (List.mem_cons_self r l)
    have hstep : scanStep acc r = acc := by simp [scanStep, hr]
    show l.foldl scanStep (scanStep acc r) = acc
    rw [hstep]
    exact ih acc (fun f hf => hall f (List.mem_cons_of_mem r hf))

/-- `Math.round` does not go below any integer lower bound of its
argument. -/
lemma jsRound_ge (z : ℤ) (q : ℚ) (h : (z : ℚ) ≤ q) : z ≤ jsRound q := by
  unfold jsRound
  rw [Int.le_floor]
  linarith

/-- C7.  The Frame Locator never returns a best rectangle with either
dimension below 50 px: any returned rectangle is the rounding of a
qualifying iframe rectangle from the document whose area is maximal among
all qualifying iframes; when no qualifying iframe exists the result is
`(none, viewportW, viewportH)` (the viewport dimensions being the window's
inner dimensions, with the script's fallback only when a dimension reads
0); and the locator is a pure function of the document state, so it has no
side effects. -/
theorem c7_frame_locator (l : List RectQ) (w h : Int) (b : CropRect) :
    ((getViewportAndCrop l w h).1 = some b →
      50 ≤ b.width ∧ 50 ≤ b.height ∧
      ∃ r ∈ l, (50 ≤ r.width ∧ 50 ≤ r.height) ∧ b = roundRect r ∧
        ∀ f ∈ l, 50 ≤ f.width → 50 ≤ f.height →
          f.width * f.height ≤ r.width * r.height) ∧
    ((∀ f ∈ l, f.width < 50 ∨ f.height < 50) →
      getViewportAndCrop l w h = (none, effectiveDim w 1280, effectiveDim h 720)) ∧
    (w ≠ 0 → effectiveDim w 1280 = w) ∧
    (h ≠ 0 → effectiveDim h 720 = h) := by
  refine ⟨?_, ?_, ?_, ?_⟩
  · intro hb
    have hmap : (selectBest l).map roundRect = some b := hb
    obtain ⟨r0, hsel, hround⟩ := Option.map_eq_some'.mp hmap
    have hspec := scan_foldl_spec l (none, 0) (fun _ => rfl) (by intro b hb; simp at hb)
    obtain ⟨c1, c2, c3, c4⟩ := hspec
    obtain ⟨hq, harea, horig⟩ := c2 r0 hsel
    have hmem : r0 ∈ l := by
      rcases horig with hc | hc
      · simp at hc
      · exact hc
    have hw50 : ((50 : ℤ) : ℚ) ≤ r0.width := by
      rw [show ((50 : ℤ) : ℚ) = (50 : ℚ) by norm_num]
      exact hq.1
    have hh50 : ((50 : ℤ) : ℚ) ≤ r0.height := by
      rw [show ((50 : ℤ) : ℚ) = (50 : ℚ) by norm_num]
      exact hq.2
    subst hround
    refine ⟨jsRound_ge 50 r0.width hw50, jsRound_ge 50 r0.height hh50,
      r0, hmem, hq, rfl, ?_⟩
    intro f hf hfw hfh
    rw [← harea]
    exact c3 f hf hfw hfh
  · intro hall
    have hsel : selectBest l = none := by
      unfold selectBest
      rw [scan_all_small l (none, 0) hall]
    unfold getViewportAndCrop
    rw [hsel]
    rfl
  · intro hw
    simp [effectiveDim, hw]
  · intro hh
    simp [effectiveDim, hh]

/-- Concrete document for the C7 witness: one under-threshold iframe, the
100 by 200 challenge iframe, and a smaller 60 by 60 iframe. -/
def c7iframes : List RectQ := [⟨0, 0, 49, 300⟩, ⟨5, 5, 100, 200⟩, ⟨1, 1, 60, 60⟩]

/-- C7 witness: the locator theorem applied to `c7iframes` (the 100 by 200
iframe wins) and to a document with only an under-threshold iframe. -/
theorem c7_frame_locator_w :
    (50 ≤ (⟨5, 5, 100, 200⟩ : CropRect).width ∧
     50 ≤ (⟨5, 5, 100, 200⟩ : CropRect).height ∧
     ∃ r ∈ c7iframes, (50 ≤ r.width ∧ 50 ≤ r.height) ∧
       (⟨5, 5, 100, 200⟩ : CropRect) = roundRect r ∧
       ∀ f ∈ c7iframes, 50 ≤ f.width → 50 ≤ f.height →
         f.width * f.height ≤ r.width * r.height) ∧
    getViewportAndCrop [⟨0, 0, 10, 10⟩] 800 600 = (none, effectiveDim 800 1280, effectiveDim 600 720) ∧
    effectiveDim 800 1280 = 800 :=
  ⟨(c7_frame_locator c7iframes 800 600 ⟨5, 5, 100, 200⟩).1
      (by simp [getViewportAndCrop, selectBest, scanStep, roundRect, jsRound, c7iframes]; norm_num),
   (c7_frame_locator [⟨0, 0, 10, 10⟩] 800 600 ⟨5, 5, 100, 200⟩).2.1
      (by intro f hf; simp at hf; subst hf; norm_num),
   (c7_frame_locator [] 800 600 ⟨5, 5, 100, 200⟩).2.2.1 (by decide)⟩

/-- The token/screenshot phase adds no pointer dispatch events. -/
lemma ts_dispatch (t1 ls : ℤ) (e : IterEnv) (pre : List Ev) :
    ∀ s g d, Ev.dispatchEv s g d ∈ (tokenAndShot t1 ls e pre).1 →
      Ev.dispatchEv s g d ∈ pre := by
  intro s g d hmem
  rw [tokenAndShot] at hmem
  rcases htok : getToken e.tokenField with _ | tok <;> rw [htok] at hmem
  · by_cases hg : (200 : ℤ) ≤ t1 - ls
    · rw [if_pos hg] at hmem
      rcases hsh : e.shot with _ | _ | _ <;> rw [hsh] at hmem <;>
        (try simp at hmem) <;> exact hmem
    · rw [if_neg hg] at hmem
      exact hmem
  · by_cases hn : e.notifyRaised <;> simp [hn] at hmem <;> exact hmem

/-- Any notify call added by the token/screenshot phase carries exactly
the token observed by the token read of that iteration. -/
lemma ts_notify_token (t1 ls : ℤ) (e : IterEnv) (pre : List Ev) :
    ∀ s tok, Ev.notifyCall s tok ∈ (tokenAndShot t1 ls e pre).1 →
      Ev.notifyCall s tok ∈ pre ∨ getToken e.tokenField = some tok := by
  intro s tok hmem
  rw [tokenAndShot] at hmem
  rcases htok : getToken e.tokenField with _ | tok' <;> rw [htok] at hmem
  · left
    by_cases hg : (200 : ℤ) ≤ t1 - ls
    · rw [if_pos hg] at hmem
      rcases hsh : e.shot with _ | _ | _ <;> rw [hsh] at hmem <;>
        (try simp at hmem) <;> exact hmem
    · rw [if_neg hg] at hmem
      exact hmem
  · by_cases hn : e.notifyRaised <;> simp [hn] at hmem <;>
      · rcases hmem with h | h
        · exact Or.inl h
        · right
          rw [h.2]

/-- The token/screenshot phase adds exactly one notify call when a token
was observed and none otherwise. -/
lemma ts_count_notify (t1 ls : ℤ) (e : IterEnv) (pre : List Ev) :
    countNotify (tokenAndShot t1 ls e pre).1 =
      countNotify pre + (if (getToken e.tokenField).isSome then 1 else 0) := by
  rw [tokenAndShot]
  rcases htok : getToken e.tokenField with _ | tok'
  · by_cases hg : (200 : ℤ) ≤ t1 - ls
    · rw [if_pos hg]
      rcases hsh : e.shot with _ | _ | _ <;>
        simp [countNotify, List.countP_append]
    · rw [if_neg hg]
      simp [countNotify]
  · by_cases hn : e.notifyRaised <;>
      simp [hn, countNotify, List.countP_append, List.countP_cons]

/-- If the notify call does not raise, the token/screenshot phase only
continues the loop when no token was observed. -/
lemma ts_notify_next_none (t1 ls : ℤ) (e : IterEnv) (pre : List Ev)
    (hn : e.notifyRaised = false) :
    ∀ t2 ls2, (tokenAndShot t1 ls e pre).2 = .next t2 ls2 →
      getToken e.tokenField = none := by
  intro t2 ls2 hres
  rw [tokenAndShot] at hres
  rcases htok : getToken e.tokenField with _ | tok' <;> rw [htok] at hres
  · simp [hn] at hres

/-- Screenshot-push accounting of the token/screenshot phase: either no
successful push is added and the last-screenshot time is unchanged, or one
successful push at a time at least 200 ms past the previous one is added
and becomes the new last-screenshot time. -/
lemma ts_push_spec (t1 ls : ℤ) (e : IterEnv) (pre : List Ev) (h : ls ≤ t1) :
    (successPushTimes (tokenAndShot t1 ls e pre).1 = successPushTimes pre ∧
      (∀ t2 ls2, (tokenAndShot t1 ls e pre).2 = .next t2 ls2 → ls2 = ls ∧ ls ≤ t2)) ∨
    (successPushTimes (tokenAndShot t1 ls e pre).1 = successPushTimes pre ++ [t1] ∧
      ls + 200 ≤ t1 ∧ (tokenAndShot t1 ls e pre).2 = .next (t1 + 120) t1) := by
  rw [tokenAndShot]
  rcases htok : getToken e.tokenField with _ | tok'
  · by_cases hg : (200 : ℤ) ≤ t1 - ls
    · rw [if_pos hg]
      rcases hsh : e.shot with _ | _ | _
      · left
        refine ⟨rfl, ?_⟩
        intro t2 ls2 hres
        obtain ⟨h1, h2⟩ := StepRes.next.inj hres
        constructor
        · omega
        · omega
      · left
        refine ⟨?_, ?_⟩
        · simp [successPushTimes, List.filterMap_append]
        · intro t2 ls2 hres
          obtain ⟨h1, h2⟩ := StepRes.next.inj hres
          constructor
          · omega
          · omega
      · right
        refine ⟨?_, by omega, rfl⟩
        simp [successPushTimes, List.filterMap_append]
    · rw [if_neg hg]
      left
      refine ⟨rfl, ?_⟩
      intro t2 ls2 hres
      obtain ⟨h1, h2⟩ := StepRes.next.inj hres
      constructor
      · omega
      · omega
  · by_cases hn : e.notifyRaised <;> simp only [hn, if_true, if_false, Bool.false_eq_true] <;>
      left
    · refine ⟨by simp [successPushTimes, List.filterMap_append], ?_⟩
      intro t2 ls2 hres
      simp at hres
      obtain ⟨h1, h2⟩ := hres
      constructor
      · omega
      · omega
    · refine ⟨by simp [successPushTimes, List.filterMap_append], ?_⟩
      intro t2 ls2 hres
      simp at hres

/-- The poll and dispatch events of an iteration contain no screenshot
pushes. -/
lemma pre_no_push (route : Option CropRect → Gesture → Dispatch) (crop : Option CropRect)
    (t : ℤ) (act : Option Gesture) :
    successPushTimes (Ev.pollCall t :: actionEvs route crop t act) = [] := by
  rcases act with _ | g <;> simp [actionEvs, successPushTimes]

/-- The poll and dispatch events of an iteration contain no notify
calls. -/
lemma pre_no_notify (route : Option CropRect → Gesture → Dispatch) (crop : Option CropRect)
    (t : ℤ) (act : Option Gesture) :
    countNotify (Ev.pollCall t :: actionEvs route crop t act) = 0 := by
  rcases act with _ | g <;> simp [actionEvs, countNotify]

/-- The dispatch event of an iteration routes its gesture with the loop's
crop rectangle. -/
lemma pre_dispatch (route : Option CropRect → Gesture → Dispatch) (crop : Option CropRect)
    (t : ℤ) (act : Option Gesture) :
    ∀ s g d, Ev.dispatchEv s g d ∈ (Ev.pollCall t :: actionEvs route crop t act) →
      d = route crop g := by
  intro s g d hmem
  rcases act with _ | g' <;> simp [actionEvs] at hmem
  obtain ⟨_, hg, hd⟩ := hmem
  rw [hd, hg]

/-- Every pointer dispatch of one loop iteration is routed with the
loop's crop rectangle. -/
lemma step_dispatch_route (route : Option CropRect → Gesture → Dispatch)
    (crop : Option CropRect) (t ls : ℤ) (e : IterEnv) :
    ∀ s g d, Ev.dispatchEv s g d ∈ (stepIter route crop t ls e).1 → d = route crop g := by
  intro s g d hmem
  rw [stepIter] at hmem
  rcases hp : e.poll with _ | _ | ⟨status, act⟩ <;> rw [hp] at hmem <;>
    simp only [stepPoll] at hmem
  · simp at hmem
  · simp at hmem
  · by_cases hs : status = "expired" ∨ status = "solved"
    · rw [if_pos hs] at hmem
      simp at hmem
    · rw [if_neg hs] at hmem
      by_cases ha : (e.actRaised && act.isSome) = true
      · rw [if_pos ha] at hmem
        exact pre_dispatch route crop t act s g d hmem
      · rw [if_neg ha] at hmem
        exact pre_dispatch route crop t act s g d
          (ts_dispatch (afterAction t act) ls e _ s g d hmem)

/-- Every notify call of one loop iteration carries the token observed in
that iteration. -/
lemma step_notify_token (route : Option CropRect → Gesture → Dispatch)
    (crop : Option CropRect) (t ls : ℤ) (e : IterEnv) :
    ∀ s tok, Ev.notifyCall s tok ∈ (stepIter route crop t ls e).1 →
      getToken e.tokenField = some tok := by
  intro s tok hmem
  rw [stepIter] at hmem
  rcases hp : e.poll with _ | _ | ⟨status, act⟩ <;> rw [hp] at hmem <;>
    simp only [stepPoll] at hmem
  · simp at hmem
  · simp at hmem
  · by_cases hs : status = "expired" ∨ status = "solved"
    · rw [if_pos hs] at hmem
      simp at hmem
    · rw [if_neg hs] at hmem
      by_cases ha : (e.actRaised && act.isSome) = true
      · rw [if_pos ha] at hmem
        rcases act with _ | g' <;> simp [actionEvs] at hmem
      · rw [if_neg ha] at hmem
        rcases ts_notify_token (afterAction t act) ls e _ s tok hmem with h | h
        · rcases act with _ | g' <;> simp [actionEvs] at h
        · exact h

/-- One loop iteration makes at most one notify call. -/
lemma step_count_notify (route : Option CropRect → Gesture → Dispatch)
    (crop : Option CropRect) (t ls : ℤ) (e : IterEnv) :
    countNotify (stepIter route crop t ls e).1 ≤ 1 := by
  rw [stepIter]
  rcases hp : e.poll with _ | _ | ⟨status, act⟩ <;> simp only [stepPoll]
  · simp [countNotify]
  · simp [countNotify]
  · by_cases hs : status = "expired" ∨ status = "solved"
    · rw [if_pos hs]
      simp [countNotify]
    · rw [if_neg hs]
      by_cases ha : (e.actRaised && act.isSome) = true
      · rw [if_pos ha]
        rw [pre_no_notify route crop t act]
        omega
      · rw [if_neg ha]
        rw [ts_count_notify (afterAction t act) ls e _, pre_no_notify route crop t act]
        split <;> omega

/-- When the notify call does not raise, an iteration that continues the
loop made no notify call. -/
lemma step_notify_zero_of_next (route : Option CropRect → Gesture → Dispatch)
    (crop : Option CropRect) (t ls : ℤ) (e : IterEnv) (hn : e.notifyRaised = false) :
    ∀ t2 ls2, (stepIter route crop t ls e).2 = .next t2 ls2 →
      countNotify (stepIter route crop t ls e).1 = 0 := by
  intro t2 ls2 hres
  rw [stepIter] at hres ⊢
  rcases hp : e.poll with _ | _ | ⟨status, act⟩ <;> rw [hp] at hres <;>
    simp only [stepPoll] at hres ⊢
  · simp [countNotify]
  · simp [countNotify]
  · by_cases hs : status = "expired" ∨ status = "solved"
    · rw [if_pos hs] at hres
      simp at hres
    · rw [if_neg hs] at hres ⊢
      by_cases ha : (e.actRaised && act.isSome) = true
      · rw [if_pos ha]
        exact pre_no_notify route crop t act
      · rw [if_neg ha] at hres ⊢
        have htok := ts_notify_next_none (afterAction t act) ls e _ hn t2 ls2 hres
        rw [ts_count_notify (afterAction t act) ls e _, pre_no_notify route crop t act, htok]
        rfl

/-- Screenshot-push accounting of one whole iteration (see
`ts_push_spec`). -/
lemma step_push_spec (route : Option CropRect → Gesture → Dispatch)
    (crop : Option CropRect) (t ls : ℤ) (e : IterEnv) (h : ls ≤ t) :
    (successPushTimes (stepIter route crop t ls e).1 = [] ∧
      (∀ t2 ls2, (stepIter route crop t ls e).2 = .next t2 ls2 → ls2 = ls ∧ ls ≤ t2)) ∨
    (∃ tp, successPushTimes (stepIter route crop t ls e).1 = [tp] ∧ ls + 200 ≤ tp ∧
      (stepIter route crop t ls e).2 = .next (tp + 120) tp) := by
  rw [stepIter]
  rcases hp : e.poll with _ | _ | ⟨status, act⟩ <;> simp only [stepPoll]
  · left
    refine ⟨by simp [successPushTimes], ?_⟩
    intro t2 ls2 hres
    simp at hres
    obtain ⟨h1, h2⟩ := hres
    omega
  · left
    refine ⟨by simp [successPushTimes], ?_⟩
    intro t2 ls2 hres
    simp at hres
  · by_cases hs : status = "expired" ∨ status = "solved"
    · rw [if_pos hs]
      left
      refine ⟨by simp [successPushTimes], ?_⟩
      intro t2 ls2 hres
      simp at hres
    · rw [if_neg hs]
      by_cases ha : (e.actRaised && act.isSome) = true
      · rw [if_pos ha]
        left
        refine ⟨pre_no_push route crop t act, ?_⟩
        intro t2 ls2 hres
        simp at hres
        obtain ⟨h1, h2⟩ := hres
        omega
      · rw [if_neg ha]
        have h1 : ls ≤ afterAction t act := by
          rcases act with _ | g' <;> simp [afterAction] <;> omega
        rcases ts_push_spec (afterAction t act) ls e _ h1 with ⟨hspt, hnext⟩ | ⟨hspt, hgap, hres⟩
        · left
          rw [hspt, pre_no_push route crop t act]
          exact ⟨rfl, hnext⟩
        · right
          exact ⟨afterAction t act, by rw [hspt, pre_no_push route crop t act]; rfl, hgap, hres⟩

/-- Unfolding of the loop when the head iteration stops it. -/
lemma runLoopAux_cons_stop (route : Option CropRect → Gesture → Dispatch)
    (crop : Option CropRect) (t ls : ℤ) (e : IterEnv) (rest : List IterEnv) (ex : LoopExit)
    (hstep : (stepIter route crop t ls e).2 = .stop ex) :
    runLoopAux route crop t ls (e :: rest) = ((stepIter route crop t ls e).1, ex) := by
  rw [runLoopAux, hstep]

/-- Unfolding of the loop when the head iteration continues. -/
lemma runLoopAux_cons_next (route : Option CropRect → Gesture → Dispatch)
    (crop : Option CropRect) (t ls : ℤ) (e : IterEnv) (rest : List IterEnv) (t2 ls2 : ℤ)
    (hstep : (stepIter route crop t ls e).2 = .next t2 ls2) :
    runLoopAux route crop t ls (e :: rest) =
      ((stepIter route crop t ls e).1 ++ (runLoopAux route crop t2 ls2 rest).1,
       (runLoopAux route crop t2 ls2 rest).2) := by
  rw [runLoopAux, hstep]

/-- Every pointer dispatch of a whole loop run is routed with the crop
rectangle the loop was entered with. -/
lemma loop_dispatch_route (route : Option CropRect → Gesture → Dispatch)
    (crop : Option CropRect) :
    ∀ (envs : List IterEnv) (t ls : ℤ) (s : ℤ) (g : Gesture) (d : Dispatch),
      Ev.dispatchEv s g d ∈ (runLoopAux route crop t ls envs).1 → d = route crop g := by
  intro envs
  induction envs with
  | nil => intro t ls s g d hmem; simp [runLoopAux] at hmem
  | cons e rest ih =>
    intro t ls s g d hmem
    rcases hstep : (stepIter route crop t ls e).2 with ex | ⟨t2, ls2⟩
    · rw [runLoopAux_cons_stop route crop t ls e rest ex hstep] at hmem
      exact step_dispatch_route route crop t ls e s g d hmem
    · rw [runLoopAux_cons_next route crop t ls e rest t2 ls2 hstep] at hmem
      rcases List.mem_append.mp hmem with h | h
      · exact step_dispatch_route route crop t ls e s g d h
      · exact ih t2 ls2 s g d h

/-- Every notify call of a loop run carries a token observed by some
iteration of the run. -/
lemma loop_notify_token (route : Option CropRect → Gesture → Dispatch)
    (crop : Option CropRect) :
    ∀ (envs : List IterEnv) (t ls : ℤ) (s : ℤ) (tok : String),
      Ev.notifyCall s tok ∈ (runLoopAux route crop t ls envs).1 →
      ∃ e ∈ envs, getToken e.tokenField = some tok := by
  intro envs
  induction envs with
  | nil => intro t ls s tok hmem; simp [runLoopAux] at hmem
  | cons e rest ih =>
    intro t ls s tok hmem
    rcases hstep : (stepIter route crop t ls e).2 with ex | ⟨t2, ls2⟩
    · rw [runLoopAux_cons_stop route crop t ls e rest ex hstep] at hmem
      exact ⟨e, List.mem_cons_self e rest, step_notify_token route crop t ls e s tok hmem⟩
    · rw [runLoopAux_cons_next route crop t ls e rest t2 ls2 hstep] at hmem
      rcases List.mem_append.mp hmem with h | h
      · exact ⟨e, List.mem_cons_self e rest, step_notify_token route crop t ls e s tok h⟩
      · obtain ⟨e', he', htok⟩ := ih t2 ls2 s tok h
        exact ⟨e', List.mem_cons_of_mem e he', htok⟩

/-- When no notify call raises, a loop run makes at most one notify
call. -/
lemma loop_count_notify (route : Option CropRect → Gesture → Dispatch)
    (crop : Option CropRect) :
    ∀ (envs : List IterEnv) (t ls : ℤ), (∀ e ∈ envs, e.notifyRaised = false) →
      countNotify (runLoopAux route crop t ls envs).1 ≤ 1 := by
  intro envs
  induction envs with
  | nil => intro t ls _; simp [runLoopAux, countNotify]
  | cons e rest ih =>
    intro t ls hall
    rcases hstep : (stepIter route crop t ls e).2 with ex | ⟨t2, ls2⟩
    · rw [runLoopAux_cons_stop route crop t ls e rest ex hstep]
      exact step_count_notify route crop t ls e
    · rw [runLoopAux_cons_next route crop t ls e rest t2 ls2 hstep]
      have h0 := step_notify_zero_of_next route crop t ls e
        (hall e (List.mem_cons_self e rest)) t2 ls2 hstep
      have : countNotify ((stepIter route crop t ls e).1 ++ (runLoopAux route crop t2 ls2 rest).1) =
          countNotify (stepIter route crop t ls e).1 +
            countNotify (runLoopAux route crop t2 ls2 rest).1 := by
        simp [countNotify, List.countP_append]
      rw [this, h0]
      simpa using ih t2 ls2 (fun q hq => hall q (List.mem_cons_of_mem e hq))

/-- The successful screenshot pushes of a loop run are at least 200 ms
apart, starting from the initial last-screenshot time. -/
lemma loop_chain_push (route : Option CropRect → Gesture → Dispatch)
    (crop : Option CropRect) :
    ∀ (envs : List IterEnv) (t ls : ℤ), ls ≤ t →
      List.Chain (fun a b => a + 200 ≤ b) ls
        (successPushTimes (runLoopAux route crop t ls envs).1) := by
  intro envs
  induction envs with
  | nil => intro t ls _; simp [runLoopAux, successPushTimes]
  | cons e rest ih =>
    intro t ls hle
    have hsplit : ∀ l1 l2 : List Ev,
        successPushTimes (l1 ++ l2) = successPushTimes l1 ++ successPushTimes l2 := by
      intro l1 l2; simp [successPushTimes, List.filterMap_append]
    rcases hstep : (stepIter route crop t ls e).2 with ex | ⟨t2, ls2⟩
    · rw [runLoopAux_cons_stop route crop t ls e rest ex hstep]
      rcases step_push_spec route crop t ls e hle with ⟨hspt, _⟩ | ⟨tp, hspt, hgap, hres⟩
      · rw [hspt]; exact List.Chain.nil
      · rw [hres] at hstep
        exact absurd hstep (by simp)
    · rw [runLoopAux_cons_next route crop t ls e rest t2 ls2 hstep]
      rw [hsplit]
      rcases step_push_spec route crop t ls e hle with ⟨hspt, hnext⟩ | ⟨tp, hspt, hgap, hres⟩
      · rw [hspt]
        obtain ⟨hls2, ht2⟩ := hnext t2 ls2 hstep
        subst hls2
        exact ih _ _ ht2
      · rw [hspt]
        rw [hres] at hstep
        obtain ⟨ht2, hls2⟩ := StepRes.next.inj hstep
        subst ht2
        subst hls2
        exact List.Chain.cons hgap (ih _ _ (by omega))

/-- A token reported by the token watcher is never the empty string. -/
lemma getToken_some_ne_empty (field : Option String) (tok : String)
    (h : getToken field = some tok) : tok ≠ "" := by
  rcases field with _ | s
  · simp [getToken] at h
  · rw [getToken] at h
    by_cases hs : pyStrip s = ""
    · rw [if_pos hs] at h
      simp at h
    · rw [if_neg hs] at h
      injection h with h'
      subst h'
      exact hs

/-- A KeyboardInterrupt iteration emits only its poll event and stops the
loop. -/
lemma stepIter_interrupt (route : Option CropRect → Gesture → Dispatch)
    (crop : Option CropRect) (t ls : ℤ) (e : IterEnv) (hp : e.poll = .interrupt) :
    stepIter route crop t ls e = ([.pollCall t], .stop .interrupted) := by
  rw [stepIter, hp]
  rfl

/-- A raising poll emits only its poll event and continues after the
1000 ms backoff. -/
lemma stepIter_raised (route : Option CropRect → Gesture → Dispatch)
    (crop : Option CropRect) (t ls : ℤ) (e : IterEnv) (hp : e.poll = .raised) :
    stepIter route crop t ls e = ([.pollCall t], .next (t + 1000) ls) := by
  rw [stepIter, hp]
  rfl

/-- A loop run all of whose iterations raise never terminates. -/
lemma loop_all_raised (route : Option CropRect → Gesture → Dispatch)
    (crop : Option CropRect) :
    ∀ (envs : List IterEnv) (t ls : ℤ), (∀ e ∈ envs, e.poll = .raised) →
      (runLoopAux route crop t ls envs).2 = .stillLooping := by
  intro envs
  induction envs with
  | nil => intro t ls _; rfl
  | cons e rest ih =>
    intro t ls hall
    have hstep := stepIter_raised route crop t ls e (hall e (List.mem_cons_self e rest))
    rw [runLoopAux_cons_next route crop t ls e rest (t + 1000) ls (by rw [hstep])]
    exact ih (t + 1000) ls (fun q hq => hall q (List.mem_cons_of_mem e hq))

/-- C2, counterexample.  A session whose crop rectangle at entry was
`{20,10,500,500}`: the freshest geometry probe before the worker's click —
the successful screenshot push at time 240 — reported no crop rectangle at
all (`none`), yet the click received afterwards is still routed into the
nested frame with the stale session-start rectangle (dispatched as
`clickInFrame (80, 40)`), where routing by a fresh per-action probe would
have dispatched on the outer page at the original coordinates. -/
theorem c2_fresh_probe_cex :
    Ev.pushCall 240 none true ∈
      (runLoop routeGesture (some ⟨20, 10, 500, 500⟩) 0
        [⟨.ok "active" none, false, none, false, none, .pushed⟩,
         ⟨.ok "active" none, false, none, false, none, .pushed⟩,
         ⟨.ok "active" none, false, none, false, none, .pushed⟩,
         ⟨.ok "active" (some (.click 100 50)), false, none, false, none, .pushed⟩]).1 ∧
    Ev.dispatchEv 360 (.click 100 50) (.clickInFrame 80 40) ∈
      (runLoop routeGesture (some ⟨20, 10, 500, 500⟩) 0
        [⟨.ok "active" none, false, none, false, none, .pushed⟩,
         ⟨.ok "active" none, false, none, false, none, .pushed⟩,
         ⟨.ok "active" none, false, none, false, none, .pushed⟩,
         ⟨.ok "active" (some (.click 100 50)), false, none, false, none, .pushed⟩]).1 ∧
    Dispatch.clickInFrame 80 40 ≠ routeGesture none (.click 100 50) :=
  ⟨by decide, by decide, by decide⟩

/-- C2, amended.  The CropRect used to route and translate every replayed
action of a session is the single rectangle the loop was entered with (the
one captured by the Expansion Waiter before the loop began): whatever the
per-iteration geometry probes of the screenshot branch report, every
dispatched action `g` carries exactly `route crop g` for the session-entry
`crop`.  The geometry probes are indeed fresh per probe, but they are only
attached to the pushed screenshots, never used for routing. -/
theorem c2_crop_cached_amended (route : Option CropRect → Gesture → Dispatch)
    (crop : Option CropRect) (t0 s : ℤ) (envs : List IterEnv) (g : Gesture) (d : Dispatch)
    (h : Ev.dispatchEv s g d ∈ (runLoop route crop t0 envs).1) :
    d = route crop g :=
  loop_dispatch_route route crop envs t0 t0 s g d h

/-- C2 witness: the amended theorem applied to a concrete one-iteration
trace whose click at viewport point (100, 50) is routed with the
session-entry crop rectangle. -/
theorem c2_crop_cached_amended_w :
    Dispatch.clickInFrame 80 40 = routeGesture (some ⟨20, 10, 500, 500⟩) (.click 100 50) :=
  c2_crop_cached_amended routeGesture (some ⟨20, 10, 500, 500⟩) 0 0
    [⟨.ok "active" (some (.click 100 50)), false, none, false, none, .probeRaised⟩]
    (.click 100 50) (.clickInFrame 80 40) (by decide)

/-- C3, counterexample.  When the `notify_solved` call itself raises (for
example a transport error after the request was issued), the exception is
caught by the loop's outer handler and the next iteration — the token still
being present — calls `notify_solved` again: two notify calls in one
session, violating "at most once including executions in which iterations
raise". -/
theorem c3_notify_twice_cex :
    countNotify (runLoop routeGesture none 0
      [⟨.ok "active" none, false, some "abc", true, none, .pushed⟩,
       ⟨.ok "active" none, false, some "abc", false, none, .pushed⟩]).1 = 2 ∧
    ¬ (2 : ℕ) ≤ 1 :=
  ⟨by decide, by decide⟩

/-- C3, amended.  Every `notify_solved` call of a session carries a
non-empty token that was observed by the token watcher in the very
iteration making the call; and along every execution in which no
`notify_solved` call itself raises, `notify_solved` is called at most once
(the loop returns right after the first successful call).  If a notify
call raises, the loop's per-iteration exception handler swallows the error
and a later iteration may legitimately call it again. -/
theorem c3_notify_amended (route : Option CropRect → Gesture → Dispatch)
    (crop : Option CropRect) (t0 : ℤ) (envs : List IterEnv) :
    (∀ s tok, Ev.notifyCall s tok ∈ (runLoop route crop t0 envs).1 →
      tok ≠ "" ∧ ∃ e ∈ envs, getToken e.tokenField = some tok) ∧
    ((∀ e ∈ envs, e.notifyRaised = false) →
      countNotify (runLoop route crop t0 envs).1 ≤ 1) := by
  constructor
  · intro s tok hmem
    obtain ⟨e, he, htok⟩ := loop_notify_token route crop envs t0 t0 s tok hmem
    exact ⟨getToken_some_ne_empty e.tokenField tok htok, e, he, htok⟩
  · intro hall
    exact loop_count_notify route crop envs t0 t0 hall

/-- C3 witness: the amended theorem applied to a concrete one-iteration
trace that observes the token "abc" and notifies once. -/
theorem c3_notify_amended_w :
    ("abc" ≠ "" ∧ ∃ e ∈ [(⟨.ok "active" none, false, some "abc", false, none,
        .pushed⟩ : IterEnv)], getToken e.tokenField = some "abc") ∧
    countNotify (runLoop routeGesture none 0
      [⟨.ok "active" none, false, some "abc", false, none, .pushed⟩]).1 ≤ 1 :=
  ⟨(c3_notify_amended routeGesture none 0
      [⟨.ok "active" none, false, some "abc", false, none, .pushed⟩]).1 0 "abc" (by decide),
   (c3_notify_amended routeGesture none 0
      [⟨.ok "active" none, false, some "abc", false, none, .pushed⟩]).2 (by decide)⟩

/-- C8, counterexample.  An exception raised inside the screenshot branch
is caught by that branch's own inner handler and the loop continues after
only the regular 120 ms poll sleep, not a ~1 second backoff: in this trace
the screenshot push at 240 ms raises, and the very next poll happens at
360 ms — 120 ms later.  The ~1 s backoff applies only to exceptions that
reach the iteration's outer handler. -/
theorem c8_inner_handler_cex :
    (runLoop routeGesture none 0
      [⟨.ok "active" none, false, none, false, none, .pushed⟩,
       ⟨.ok "active" none, false, none, false, none, .pushed⟩,
       ⟨.ok "active" none, false, none, false, none, .pushRaised⟩,
       ⟨.ok "active" none, false, none, false, none, .pushed⟩]).1 =
      [.pollCall 0, .pollCall 120, .pollCall 240, .pushCall 240 none false,
       .pollCall 360, .pushCall 360 none true] ∧
    ¬ (1000 : ℤ) ≤ 360 - 240 :=
  ⟨by decide, by decide⟩

/-- C8, amended.  A KeyboardInterrupt during an iteration ends the loop
cleanly with no further events of any kind (in particular no further
network calls), whatever environments would have followed; any other
exception never terminates the loop — a trace of nothing but raising
iterations leaves the loop still running.  Exceptions that reach the
iteration's outer handler (a raising poll, a raising action replay, a
raising `notify_solved`) are logged and followed by an exact 1000 ms
(~1 s) backoff before the next poll; exceptions raised inside the
screenshot branch (a raising geometry probe or screenshot upload) are
caught by that branch's own inner handler and the loop continues after
only the regular 120 ms poll sleep. -/
theorem c8_loop_resilience_amended (route : Option CropRect → Gesture → Dispatch)
    (crop : Option CropRect) (t ls : ℤ) (e : IterEnv) (rest envs : List IterEnv)
    (status : String) (g : Gesture) (tok : String) :
    (e.poll = .interrupt →
      runLoopAux route crop t ls (e :: rest) = ([.pollCall t], .interrupted)) ∧
    ((∀ x ∈ envs, x.poll = .raised) →
      (runLoopAux route crop t ls envs).2 = .stillLooping) ∧
    (e.poll = .raised →
      runLoopAux route crop t ls (e :: rest) =
        (.pollCall t :: (runLoopAux route crop (t + 1000) ls rest).1,
         (runLoopAux route crop (t + 1000) ls rest).2)) ∧
    (e.poll = .ok status (some g) → ¬ (status = "expired" ∨ status = "solved") →
      e.actRaised = true →
      runLoopAux route crop t ls (e :: rest) =
        (.pollCall t :: .dispatchEv t g (route crop g) ::
           (runLoopAux route crop (t + 1000) ls rest).1,
         (runLoopAux route crop (t + 1000) ls rest).2)) ∧
    (e.poll = .ok status none → ¬ (status = "expired" ∨ status = "solved") →
      getToken e.tokenField = some tok → e.notifyRaised = true →
      runLoopAux route crop t ls (e :: rest) =
        (.pollCall t :: .notifyCall t tok ::
           (runLoopAux route crop (t + 1000) ls rest).1,
         (runLoopAux route crop (t + 1000) ls rest).2)) ∧
    (e.poll = .ok status none → ¬ (status = "expired" ∨ status = "solved") →
      getToken e.tokenField = none → 200 ≤ t - ls → e.shot = .pushRaised →
      runLoopAux route crop t ls (e :: rest) =
        (.pollCall t :: .pushCall t e.geom false ::
           (runLoopAux route crop (t + 120) ls rest).1,
         (runLoopAux route crop (t + 120) ls rest).2)) ∧
    (e.poll = .ok status none → ¬ (status = "expired" ∨ status = "solved") →
      getToken e.tokenField = none → 200 ≤ t - ls → e.shot = .probeRaised →
      runLoopAux route crop t ls (e :: rest) =
        (.pollCall t :: (runLoopAux route crop (t + 120) ls rest).1,
         (runLoopAux route crop (t + 120) ls rest).2)) := by
  refine ⟨?_, loop_all_raised route crop envs t ls, ?_, ?_, ?_, ?_, ?_⟩
  · intro hp
    have hstep := stepIter_interrupt route crop t ls e hp
    rw [runLoopAux_cons_stop route crop t ls e rest .interrupted (by rw [hstep])]
    rw [hstep]
  · intro hp
    have hstep := stepIter_raised route crop t ls e hp
    rw [runLoopAux_cons_next route crop t ls e rest (t + 1000) ls (by rw [hstep])]
    rw [hstep]
    rfl
  · intro hp hs ha
    have hstep : stepIter route crop t ls e =
        ([.pollCall t, .dispatchEv t g (route crop g)], .next (t + 1000) ls) := by
      rw [stepIter, hp]
      simp only [stepPoll]
      rw [if_neg hs, if_pos (by simp [ha])]
      rfl
    rw [runLoopAux_cons_next route crop t ls e rest (t + 1000) ls (by rw [hstep])]
    rw [hstep]
    rfl
  · intro hp hs htok hn
    have hstep : stepIter route crop t ls e =
        ([.pollCall t, .notifyCall t tok], .next (t + 1000) ls) := by
      rw [stepIter, hp]
      simp only [stepPoll]
      rw [if_neg hs, if_neg (by simp)]
      rw [show afterAction t none = t from rfl]
      rw [tokenAndShot, htok]
      simp [hn, actionEvs]
    rw [runLoopAux_cons_next route crop t ls e rest (t + 1000) ls (by rw [hstep])]
    rw [hstep]
    rfl
  · intro hp hs htok hg hsh
    have hstep : stepIter route crop t ls e =
        ([.pollCall t, .pushCall t e.geom false], .next (t + 120) ls) := by
      rw [stepIter, hp]
      simp only [stepPoll]
      rw [if_neg hs, if_neg (by simp)]
      rw [show afterAction t none = t from rfl]
      rw [tokenAndShot, htok]
      rw [if_pos hg, hsh]
      simp [actionEvs]
    rw [runLoopAux_cons_next route crop t ls e rest (t + 120) ls (by rw [hstep])]
    rw [hstep]
    rfl
  · intro hp hs htok hg hsh
    have hstep : stepIter route crop t ls e =
        ([.pollCall t], .next (t + 120) ls) := by
      rw [stepIter, hp]
      simp only [stepPoll]
      rw [if_neg hs, if_neg (by simp)]
      rw [show afterAction t none = t from rfl]
      rw [tokenAndShot, htok]
      rw [if_pos hg, hsh]
      simp [actionEvs]
    rw [runLoopAux_cons_next route crop t ls e rest (t + 120) ls (by rw [hstep])]
    rw [hstep]
    rfl

/-- C8 witness: the amended resilience theorem applied to concrete
traces — an interrupt iteration ends a loop immediately; a two-iteration
all-error trace leaves the loop still running; a raising action replay
continues at exactly t + 1000; and a raising screenshot push at t = 240
(with last screenshot at 0) continues at exactly t + 120. -/
theorem c8_loop_resilience_amended_w :
    runLoopAux routeGesture none 0 0
      [⟨.interrupt, false, none, false, none, .pushed⟩] = ([.pollCall 0], .interrupted) ∧
    (runLoopAux routeGesture none 0 0
      [⟨.raised, false, none, false, none, .pushed⟩,
       ⟨.raised, false, none, false, none, .pushed⟩]).2 = .stillLooping ∧
    runLoopAux routeGesture none 0 0
      [⟨.ok "active" (some (.click 3 4)), true, none, false, none, .pushed⟩] =
      (.pollCall 0 :: .dispatchEv 0 (.click 3 4) (routeGesture none (.click 3 4)) ::
         (runLoopAux routeGesture none 1000 0 []).1,
       (runLoopAux routeGesture none 1000 0 []).2) ∧
    runLoopAux routeGesture none 240 0
      [⟨.ok "active" none, false, none, false, none, .pushRaised⟩] =
      (.pollCall 240 :: .pushCall 240 none false ::
         (runLoopAux routeGesture none 360 0 []).1,
       (runLoopAux routeGesture none 360 0 []).2) :=
  ⟨(c8_loop_resilience_amended routeGesture none 0 0
      ⟨.interrupt, false, none, false, none, .pushed⟩ [] [] "active" (.click 3 4) "x").1 rfl,
   (c8_loop_resilience_amended routeGesture none 0 0
      ⟨.interrupt, false, none, false, none, .pushed⟩ []
      [⟨.raised, false, none, false, none, .pushed⟩,
       ⟨.raised, false, none, false, none, .pushed⟩] "active" (.click 3 4) "x").2.1 (by decide),
   (c8_loop_resilience_amended routeGesture none 0 0
      ⟨.ok "active" (some (.click 3 4)), true, none, false, none, .pushed⟩ [] []
      "active" (.click 3 4) "x").2.2.2.1 rfl (by decide) rfl,
   (c8_loop_resilience_amended routeGesture none 240 0
      ⟨.ok "active" none, false, none, false, none, .pushRaised⟩ [] []
      "active" (.click 3 4) "x").2.2.2.2.2.1 rfl (by decide) rfl (by decide) rfl⟩

/-- C9, counterexample.  A screenshot push whose upload raises does not
update `last_shot`, so the retry happens at the very next poll iteration:
two consecutive screenshot push network calls only 120 ms apart (at 240 ms
and 360 ms), below the 200 ms minimum cadence — neither of them the first
push of the session. -/
theorem c9_push_gap_cex :
    pushTimes (runLoop routeGesture none 0
      [⟨.ok "active" none, false, none, false, none, .pushed⟩,
       ⟨.ok "active" none, false, none, false, none, .pushed⟩,
       ⟨.ok "active" none, false, none, false, none, .pushRaised⟩,
       ⟨.ok "active" none, false, none, false, none, .pushed⟩]).1 = [240, 360] ∧
    (360 : ℤ) - 240 < 200 :=
  ⟨by decide, by decide⟩

/-- C9, amended.  Between any two consecutive successful screenshot pushes
of the steady loop at least 200 ms elapse, and the first successful push
happens at least 200 ms after loop entry (`last_shot` is initialized to
the entry time, itself not before the `startSession` push): the chain
relation holds along the whole list of successful push times.  A failed
push attempt, however, leaves `last_shot` unchanged, so a retry network
call may follow a failed attempt after only one 120 ms poll interval. -/
theorem c9_push_cadence_amended (route : Option CropRect → Gesture → Dispatch)
    (crop : Option CropRect) (t0 : ℤ) (envs : List IterEnv) :
    List.Chain (fun a b => a + 200 ≤ b) t0
      (successPushTimes (runLoop route crop t0 envs).1) :=
  loop_chain_push route crop envs t0 t0 le_rfl

/-- C4, counterexample.  When the `createTask` call itself raises (network
failure or non-2xx response), `run_solve` does not return "no task": the
exception propagates to the caller.  No further network calls are issued,
but the claimed "returns None rather than throwing" is violated for this
failure mode. -/
theorem c4_create_throws_cex :
    runSolve routeGesture none ⟨none, false, []⟩ = ([.createTask], .raised) ∧
    SolveResult.raised ≠ .returned none :=
  ⟨rfl, by decide⟩

/-- C4, amended.  When `createTask` returns a response with a non-zero (or
missing) `errorId` or a falsy `taskId`, `run_solve` returns "no task"
(None) and issues no network call beyond the `createTask` call itself;
when the `createTask` call raises, the exception propagates to the caller
(it is not converted to None) — still with no further network calls. -/
theorem c4_create_failure_amended (route : Option CropRect → Gesture → Dispatch)
    (crop : Option CropRect) (env : SolveEnv) (res : CreateResp) :
    (env.createResult = some res →
      (res.errorId ≠ some 0 ∨ taskIdPresent res.taskId = false) →
      runSolve route crop env = ([.createTask], .returned none)) ∧
    (env.createResult = none →
      runSolve route crop env = ([.createTask], .raised)) := by
  constructor
  · intro hc hfail
    rw [runSolve, hc]
    simp only [runSolveWith]
    rw [if_pos hfail]
  · intro hc
    rw [runSolve, hc]
    rfl

/-- C4 witness: the amended theorem applied to a concrete quota-exceeded
response (`errorId = 1`) and a raising call. -/
theorem c4_create_failure_amended_w :
    runSolve routeGesture none ⟨some ⟨some 1, some "t1"⟩, false, []⟩ =
      ([.createTask], .returned none) ∧
    runSolve routeGesture none ⟨none, false, []⟩ = ([.createTask], .raised) :=
  ⟨(c4_create_failure_amended routeGesture none ⟨some ⟨some 1, some "t1"⟩, false, []⟩
      ⟨some 1, some "t1"⟩).1 rfl (by decide),
   (c4_create_failure_amended routeGesture none ⟨none, false, []⟩
      ⟨some 1, some "t1"⟩).2 rfl⟩

/-- C10.  Once task creation succeeded (zero `errorId`, truthy `taskId`)
and the session start did not raise, `run_solve` returns the created task
id whatever the steady-state loop did — terminal remote status, token
submission, user interrupt, or a still-running trace — so a non-None
return does not by itself mean the captcha was solved; and `run_solve`
returns None exactly for the createTask responses with non-zero (or
missing) `errorId` or falsy `taskId`. -/
theorem c10_run_solve_return (route : Option CropRect → Gesture → Dispatch)
    (crop : Option CropRect) (env : SolveEnv) (res : CreateResp) (tid : String) :
    (env.createResult = some res → res.errorId = some 0 → res.taskId = some tid →
      taskIdPresent res.taskId = true → env.startRaised = false →
      (runSolve route crop env).2 = .returned (some tid)) ∧
    (env.createResult = some res →
      (res.errorId ≠ some 0 ∨ taskIdPresent res.taskId = false) →
      (runSolve route crop env).2 = .returned none) ∧
    ((runSolve route crop env).2 = .returned none →
      ∃ r, env.createResult = some r ∧
        (r.errorId ≠ some 0 ∨ taskIdPresent r.taskId = false)) := by
  refine ⟨?_, ?_, ?_⟩
  · intro hc herr htid hpres hstart
    rw [runSolve, hc]
    simp only [runSolveWith]
    rw [if_neg (by simp [herr, hpres]), if_neg (by simp [hstart])]
    rw [htid]
  · intro hc hfail
    rw [runSolve, hc]
    simp only [runSolveWith]
    rw [if_pos hfail]
  · intro hret
    rcases hc : env.createResult with _ | r
    · rw [runSolve, hc] at hret
      simp [runSolveWith] at hret
    · rw [runSolve, hc] at hret
      simp only [runSolveWith] at hret
      by_cases hfail : r.errorId ≠ some 0 ∨ taskIdPresent r.taskId = false
      · exact ⟨r, rfl, hfail⟩
      · rw [if_neg hfail] at hret
        by_cases hstart : env.startRaised
        · rw [if_pos hstart] at hret
          simp at hret
        · rw [if_neg hstart] at hret
          simp at hret
          push_neg at hfail
          rcases htid : r.taskId with _ | tid'
          · rw [htid] at hfail
            simp [taskIdPresent] at hfail
          · rw [htid] at hret
            simp at hret

/-- C10 witness: a successful creation with task id "task-1" whose loop is
interrupted by the user still returns "task-1"; an errorId 1 response
returns None. -/
theorem c10_run_solve_return_w :
    (runSolve routeGesture none ⟨some ⟨some 0, some "task-1"⟩, false,
      [⟨.interrupt, false, none, false, none, .pushed⟩]⟩).2 = .returned (some "task-1") ∧
    (runSolve routeGesture none ⟨some ⟨some 1, some "task-1"⟩, false, []⟩).2 = .returned none :=
  ⟨(c10_run_solve_return routeGesture none ⟨some ⟨some 0, some "task-1"⟩, false,
      [⟨.interrupt, false, none, false, none, .pushed⟩]⟩ ⟨some 0, some "task-1"⟩ "task-1").1
      rfl rfl rfl (by decide) rfl,
   (c10_run_solve_return routeGesture none ⟨some ⟨some 1, some "task-1"⟩, false, []⟩
      ⟨some 1, some "task-1"⟩ "task-1").2.1 rfl (by decide)⟩
